import Mathlib

/-!
Shallow embedding of the live-traffic-tap subsystem of the proxy:
`src/tap/grpc/server.rs` (the subscription-accepting gRPC endpoint, the
`Tap` handle with its admission counter, the `TapResponse` /
`TapRequestBody` / `TapResponseBody` event emitters and the
`ResponseStream` consumer side) and `src/tap/service.rs` (the tap
middleware `Service`, its `ResponseFuture`, and the `Body` decorator that
mirrors frames and terminal signals to attached taps).

Modelling conventions:
* `usize` values (the admission counter, byte counters) are `Nat` reduced
  modulo `2 ^ 64` at each overflow-capable operation, matching a 64-bit
  target.
* Monotone clock readings (`clock::now()`) are `Nat` parameters.
* The bounded mpsc channel is a `Chan`: `buf` is the queue the consumer
  reads, and `log` is the full ordered record of every `try_send` attempt
  (the emissions), whether or not the queue accepted it.
* The external `Match` predicate compiler (`match_` module, not part of
  the sources) is opaque: a tap's predicate is a Lean function, and
  `Match::try_new` results are passed in as an `Except`.
-/

/-- Width modulus for 64-bit `usize` arithmetic. -/
def usizeMod : Nat := 2 ^ 64

/-- The largest `usize` value, `::std::usize::MAX` on a 64-bit target. -/
def usizeMax : Nat := 2 ^ 64 - 1

/-- `PER_REQUEST_BUFFER_CAPACITY` from `src/tap/grpc/server.rs`. -/
def PER_REQUEST_BUFFER_CAPACITY : Nat := 40

/-- `api::tap_event::http::StreamId`. -/
structure StreamId where
  base : Nat
  stream : Nat
deriving DecidableEq

/-- `api::eos::End`: the cause carried by a terminal event. There is no
cancellation variant in this API. -/
inductive EosEnd where
  | grpcStatusCode (code : Nat)
  | resetErrorCode (code : Nat)
deriving DecidableEq

/-- `api::Eos`. -/
structure Eos where
  eosEnd : Option EosEnd
deriving DecidableEq

/-- `api::tap_event::EndpointMeta`: a label map. -/
structure EndpointMeta where
  labels : List (String × String)
deriving DecidableEq

/-- The common (non-`event`) fields of `api::TapEvent`, built once per
exchange by `Tap::base_event`. -/
structure BaseEvent where
  proxyDirectionOutbound : Bool
  source : Option String
  sourceMeta : Option EndpointMeta
  destination : Option String
  destinationMeta : Option EndpointMeta
deriving DecidableEq

/-- `api::tap_event::http::Event`: the three HTTP tap event kinds. -/
inductive HttpEvent where
  | requestInit (id : StreamId) (method : String) (scheme : Option String)
      (authority : String) (path : String)
  | responseInit (id : StreamId) (sinceRequestInit : Nat) (httpStatus : Nat)
  | responseEnd (id : StreamId) (sinceRequestInit : Nat)
      (sinceResponseInit : Option Nat) (responseBytes : Nat) (eos : Eos)
deriving DecidableEq

/-- `api::TapEvent`. -/
structure TapEvent where
  base : BaseEvent
  event : Option HttpEvent
deriving DecidableEq

/-- The stream id carried by a tap event, when it carries an HTTP event. -/
def TapEvent.idOf (e : TapEvent) : Option StreamId :=
  match e.event with
  | some (.requestInit id _ _ _ _) => some id
  | some (.responseInit id _ _) => some id
  | some (.responseEnd id _ _ _ _) => some id
  | none => none

/-- Whether the event is a `RequestInit` (RequestOpen). -/
def TapEvent.isReqInit (e : TapEvent) : Bool :=
  match e.event with
  | some (.requestInit _ _ _ _ _) => true
  | _ => false

/-- Whether the event is a `ResponseInit` (ResponseOpen). -/
def TapEvent.isRspInit (e : TapEvent) : Bool :=
  match e.event with
  | some (.responseInit _ _ _) => true
  | _ => false

/-- Whether the event is a `ResponseEnd` (the terminal event). -/
def TapEvent.isRspEnd (e : TapEvent) : Bool :=
  match e.event with
  | some (.responseEnd _ _ _ _ _) => true
  | _ => false

/-- Whether the event belongs to stream id `sid`. -/
def TapEvent.hasId (sid : StreamId) (e : TapEvent) : Bool :=
  decide (e.idOf = some sid)

/-- Whether the event is a terminal event for stream id `sid`. -/
def TapEvent.isEndFor (sid : StreamId) (e : TapEvent) : Bool :=
  e.isRspEnd && e.hasId sid

/-- Number of terminal events for `sid` in an emission record. -/
def terminalCount (sid : StreamId) (l : List TapEvent) : Nat :=
  (l.filter (TapEvent.isEndFor sid)).length

/-- The events of an emission record that belong to stream id `sid`. -/
def eventsFor (sid : StreamId) (l : List TapEvent) : List TapEvent :=
  l.filter (TapEvent.hasId sid)

/-- The bounded `futures::sync::mpsc` channel allocated per subscription
(`mpsc::channel(PER_REQUEST_BUFFER_CAPACITY)`). `buf` is the queue of
accepted events awaiting the consumer; `log` records every `try_send`
attempt in order (accepted or dropped); `rxAlive` is whether the receiver
still exists (a dead receiver makes `try_send` fail); `txAlive` is whether
a sender still exists (all senders gone makes the receiver see
end-of-stream). -/
structure Chan where
  cap : Nat
  buf : List TapEvent
  log : List TapEvent
  rxAlive : Bool
  txAlive : Bool

/-- `Sender::try_send`: non-blocking; enqueues only when the receiver is
alive and the queue has room, reporting success. The attempt is always
recorded in `log`. -/
def Chan.trySend (c : Chan) (e : TapEvent) : Chan × Bool :=
  let ok : Bool := c.rxAlive && c.buf.length < c.cap
  ({ c with log := c.log ++ [e], buf := if ok then c.buf ++ [e] else c.buf }, ok)

/-- The view of an `http::Request` used by the tap code. -/
structure RequestView where
  method : String
  scheme : Option String
  path : String

/-- The results of the `Inspect` trait calls on a request, consumed by
`Tap::base_event` and `Tap::tap`. -/
structure InspectView where
  isOutbound : Bool
  srcAddr : Option String
  srcTls : String
  dstAddr : Option String
  dstTls : String
  dstLabels : Option (List (String × String))
  authority : Option String

/-- A compiled match predicate (the `match_` module is external to the
sources; per the spec it is an opaque boolean test over the request and
its inspection metadata). -/
def Match : Type := RequestView → InspectView → Bool

/-- The `Tap` handle from `src/tap/grpc/server.rs`: its sender is the
`Chan` threaded alongside; `count` is the `AtomicUsize` admission counter;
`responseHandleAlive` is whether `response_handle.upgrade()` succeeds,
i.e. whether the consumer-held `Arc` is still alive. -/
structure Tap where
  match_ : Match
  baseId : Nat
  count : Nat
  limit : Nat
  responseHandleAlive : Bool

/-- `Tap::can_tap_more`. -/
def Tap.canTapMore (t : Tap) : Bool :=
  t.responseHandleAlive && t.count < t.limit

/-- `Tap::base_event`: the shared metadata for every event of an
exchange. -/
def Tap.baseEvent (i : InspectView) : BaseEvent :=
  { proxyDirectionOutbound := i.isOutbound
    source := i.srcAddr
    sourceMeta := some { labels := [("tls", i.srcTls)] }
    destination := i.dstAddr
    destinationMeta := i.dstLabels.map fun ls =>
      { labels := ls ++ [("tls", i.dstTls)] } }

/-- `TapRequestBody` from `src/tap/grpc/server.rs`. -/
structure TapRequestBody where
  id : StreamId
  base : BaseEvent

/-- `TapResponse` from `src/tap/grpc/server.rs`. -/
structure TapResponse where
  id : StreamId
  base : BaseEvent
  requestInitAt : Nat

/-- `TapResponseBody` from `src/tap/grpc/server.rs`. -/
structure TapResponseBody where
  id : StreamId
  base : BaseEvent
  requestInitAt : Nat
  responseInitAt : Nat
  responseBytes : Nat

/-- The `RequestInit` message built inside `Tap::tap`: stream id
`{base_id, count}`, request metadata, `event` over the base metadata. -/
def Tap.reqMsg (t : Tap) (req : RequestView) (i : InspectView) : TapEvent :=
  { base := Tap.baseEvent i
    event := some (.requestInit ⟨t.baseId, t.count⟩ req.method req.scheme
      ((i.authority).getD "") req.path) }

/-- `Tap::tap`: checks the match predicate, then unconditionally
`fetch_add`s the counter and admits only when the prior value was below
the limit, then `try_send`s the `RequestInit` event; only if that send
succeeds does it return the engaged pair. -/
def Tap.tap (t : Tap) (c : Chan) (req : RequestView) (i : InspectView)
    (requestInitAt : Nat) : Tap × Chan × Option (TapRequestBody × TapResponse) :=
  if !(t.match_ req i) then (t, c, none)
  else
    let n := t.count
    let t' : Tap := { t with count := (t.count + 1) % usizeMod }
    if t.limit ≤ n then (t', c, none)
    else
      let base := Tap.baseEvent i
      let id : StreamId := ⟨t.baseId, n⟩
      let s := c.trySend (t.reqMsg req i)
      if s.2 then
        (t', s.1, some ({ id := id, base := base },
          { id := id, base := base, requestInitAt := requestInitAt }))
      else (t', s.1, none)

/-- The `ResponseInit` message built inside `TapResponse::tap`. -/
def TapResponse.rspMsg (t : TapResponse) (responseInitAt status : Nat) : TapEvent :=
  { base := t.base
    event := some (.responseInit t.id (responseInitAt - t.requestInitAt) status) }

/-- `TapResponse::tap`: best-effort send of `ResponseInit`, then hand the
exchange state to a `TapResponseBody` with a zeroed byte counter. -/
def TapResponse.tap (t : TapResponse) (c : Chan) (responseInitAt status : Nat) :
    Chan × TapResponseBody :=
  ((c.trySend (t.rspMsg responseInitAt status)).1,
   { id := t.id, base := t.base, requestInitAt := t.requestInitAt,
     responseInitAt := responseInitAt, responseBytes := 0 })

/-- The terminal message built inside `TapResponse::fail`: no
`since_response_init`, zero bytes, eos from the h2 reset reason. -/
def TapResponse.failMsg (t : TapResponse) (responseEndAt : Nat)
    (h2Reason : Option Nat) : TapEvent :=
  { base := t.base
    event := some (.responseEnd t.id (responseEndAt - t.requestInitAt) none 0
      ⟨h2Reason.map .resetErrorCode⟩) }

/-- `TapResponse::fail`: the inner service failed before any response;
best-effort send of the terminal event. -/
def TapResponse.fail (t : TapResponse) (c : Chan) (responseEndAt : Nat)
    (h2Reason : Option Nat) : Chan :=
  (c.trySend (t.failMsg responseEndAt h2Reason)).1

/-- `TapResponseBody::data`: accumulate the frame's byte count
(`usize` addition). -/
def TapResponseBody.data (b : TapResponseBody) (remaining : Nat) : TapResponseBody :=
  { b with responseBytes := (b.responseBytes + remaining) % usizeMod }

/-- The terminal message built inside `TapResponseBody::send_end`. -/
def TapResponseBody.endMsg (b : TapResponseBody) (responseEndAt : Nat)
    (e : Option EosEnd) : TapEvent :=
  { base := b.base
    event := some (.responseEnd b.id (responseEndAt - b.requestInitAt)
      (some (responseEndAt - b.responseInitAt)) b.responseBytes ⟨e⟩) }

/-- `TapResponseBody::send_end`: best-effort send of the terminal event. -/
def TapResponseBody.sendEnd (b : TapResponseBody) (c : Chan) (responseEndAt : Nat)
    (e : Option EosEnd) : Chan :=
  (c.trySend (b.endMsg responseEndAt e)).1

/-- The eos cause extracted from trailers by `TapResponseBody::eos`:
trailers are abstracted to their parsed `grpc-status` value (`none` means
no trailers, `some none` trailers without a usable `grpc-status`). -/
def grpcStatusOf (trls : Option (Option Nat)) : Option EosEnd :=
  (trls.bind fun g => g).map .grpcStatusCode

/-- `TapResponseBody::eos`. -/
def TapResponseBody.eos (b : TapResponseBody) (c : Chan) (responseEndAt : Nat)
    (trls : Option (Option Nat)) : Chan :=
  b.sendEnd c responseEndAt (grpcStatusOf trls)

/-- `TapResponseBody::fail`: eos cause from the h2 error's reset reason. -/
def TapResponseBody.fail (b : TapResponseBody) (c : Chan) (responseEndAt : Nat)
    (reason : Option Nat) : Chan :=
  b.sendEnd c responseEndAt (reason.map .resetErrorCode)

-- `impl iface::TapBody for TapRequestBody` is a no-op on data, eos and
-- fail: the request side emits no events.

/-- `TapRequestBody::data` (no-op). -/
def TapRequestBody.data (b : TapRequestBody) (_remaining : Nat) : TapRequestBody := b

/-- `TapRequestBody::eos` (no-op). -/
def TapRequestBody.eos (_b : TapRequestBody) (c : Chan)
    (_trls : Option (Option Nat)) : Chan := c

/-- `TapRequestBody::failBody` (no-op). -/
def TapRequestBody.failBody (_b : TapRequestBody) (c : Chan)
    (_reason : Option Nat) : Chan := c

-- === The subscription-accepting endpoint (`Server::observe`) ===

/-- The `Server` state: the `base_id` counter and, standing in for the
`iface::Subscribe` collaborator, the list of registered taps. -/
structure ServerS where
  baseId : Nat
  registry : List Tap

/-- The outcome of `observe`: either a gRPC invalid-argument error with
its `grpc-message`, or the `ResponseStream` (the consumer end of the
freshly allocated channel). -/
inductive ObserveOutcome where
  | invalidArg (msg : String)
  | ok (stream : Chan)

/-- `Server::observe`: validate the limit (`req.limit as usize`, a u32
widened to 64-bit `usize`, compared with `0` and `::std::usize::MAX`),
compile the match (its result is the external `Match::try_new` output),
then allocate the channel, register the tap and return the stream. -/
def Server.observe (s : ServerS) (limit_ : Nat) (matchResult : Except String Match) :
    ServerS × ObserveOutcome :=
  if limit_ = 0 then (s, .invalidArg "limit must be positive")
  else if limit_ = usizeMax then (s, .invalidArg "limit is too large")
  else
    match matchResult with
    | .error e => (s, .invalidArg e)
    | .ok m =>
      let baseId := s.baseId % 2 ^ 32
      let chan : Chan :=
        { cap := PER_REQUEST_BUFFER_CAPACITY, buf := [], log := [],
          rxAlive := true, txAlive := true }
      let tap : Tap :=
        { match_ := m, baseId := baseId, count := 0, limit := limit_,
          responseHandleAlive := true }
      ({ baseId := (s.baseId + 1) % usizeMod, registry := s.registry ++ [tap] },
       .ok chan)

-- === The `ResponseStream` consumer side ===

/-- `futures::Async`. -/
inductive Async (α : Type) where
  | notReady
  | ready (v : α)
deriving DecidableEq

/-- A gRPC error as surfaced to the stream consumer. -/
structure GrpcError where
  code : Nat
  msg : String
deriving DecidableEq

/-- `mpsc::Receiver::poll`: yield a queued event, report end-of-stream
once every sender is gone, otherwise be not ready. Its error type is
`()`. -/
def Chan.recvPoll (c : Chan) : Except Unit (Async (Option TapEvent)) × Chan :=
  match c.buf with
  | e :: rest => (.ok (.ready (some e)), { c with buf := rest })
  | [] =>
    if c.txAlive then (.ok .notReady, c)
    else (.ok (.ready none), c)

/-- The `or_else` in `impl Stream for ResponseStream`: any receiver error
becomes a clean `Ready(None)`. -/
def ResponseStream.pollMap (r : Except Unit (Async (Option TapEvent))) :
    Except GrpcError (Async (Option TapEvent)) :=
  match r with
  | .ok v => .ok v
  | .error _ => .ok (.ready none)

/-- `ResponseStream::poll`: the receiver's poll, with errors mapped to
end-of-stream. -/
def ResponseStream.poll (c : Chan) : Except GrpcError (Async (Option TapEvent)) × Chan :=
  let r := c.recvPoll
  (ResponseStream.pollMap r.1, r.2)

-- === The tap middleware (`src/tap/service.rs`) ===

/-- A `Weak<S>` entry of the middleware's `taps: VecDeque<Weak<S>>`. -/
structure WeakTap where
  upgradable : Bool
  tap : Tap

/-- `Weak::upgrade`. -/
def WeakTap.upgrade (w : WeakTap) : Option Tap :=
  if w.upgradable then some w.tap else none

/-- `Service::poll_ready`: drain every newly registered handle from the
registry feed into the deque, then retain only entries that upgrade and
report `can_tap_more`. -/
def pollReadyTaps (taps incoming : List WeakTap) : List WeakTap :=
  (taps ++ incoming).filter fun w => (w.upgrade.map Tap.canTapMore).getD false

/-- What `Service::call` forwards to the inner service as the request
body. The variant the declared inner-service type requires is
`observed` (an `http::Request` wrapped in `Body<A, TapRequestBody>`);
the block that would build it is commented out in the source, which
stores the request unchanged (`plain`). -/
inductive PassedBody (A : Type) where
  | plain (a : A)
  | observed (inner : A) (tapCount : Nat)
deriving DecidableEq

/-- The `ResponseFuture::PendingTaps` state produced by `Service::call`:
the number of upgraded, matching handles pushed into `join_all`, and the
request as stored. -/
structure PendingTaps (A : Type) where
  matched : Nat
  reqBody : PassedBody A
deriving DecidableEq

/-- `Service::call`: upgrade and match each known handle, collect the tap
futures, and store the request. The `Body` wrapping of the request is
commented out in the source (`src/tap/service.rs`, the block before
`ResponseFuture::PendingTaps`), so the stored request keeps its original
body even though the service's declared request type for the inner
service is `http::Request<Body<A, S::TapRequestBody>>`. -/
def Service.call {A : Type} (taps : List WeakTap) (req : RequestView)
    (i : InspectView) (body : A) : PendingTaps A :=
  let engaged := (taps.filterMap WeakTap.upgrade).filter fun t => t.match_ req i
  { matched := engaged.length, reqBody := .plain body }

-- === The observed body (`Body` in `src/tap/service.rs`) ===

/-- The `Body<B, T>` decorator state: the deque of still-attached taps
(the inner payload is abstracted into the event sequence fed to it). -/
structure Body where
  taps : List TapResponseBody

/-- One observable step of the inner payload as seen by `Body`:
a data poll (with the frame size when a frame arrived, and whether the
inner stream reports end-of-stream afterwards), a failed data poll, a
trailers poll, a failed trailers poll, or the drop of the body. -/
inductive BodyOp where
  | pollData (frame : Option Nat) (endOfStreamAfter : Bool)
  | pollDataErr (h2Reason : Option Nat)
  | pollTrailers (trls : Option (Option Nat))
  | pollTrailersErr (h2Reason : Option Nat)
  | dropBody
deriving DecidableEq

/-- The frame-forwarding half of `Body::data`: mirror the frame to every
attached tap. -/
def Body.dataStep (b : Body) (frame : Option Nat) : Body :=
  match frame with
  | some sz => ⟨b.taps.map fun t => t.data sz⟩
  | none => b

/-- `Body::eos`: drain every attached tap, emitting its terminal event
with the trailers-derived cause. -/
def Body.eosAll (b : Body) (c : Chan) (now : Nat) (trls : Option (Option Nat)) :
    Body × Chan :=
  (⟨[]⟩, b.taps.foldl (fun ch t => t.eos ch now trls) c)

/-- `Body::err`: drain every attached tap, emitting its terminal event
with the error-derived cause. -/
def Body.errAll (b : Body) (c : Chan) (now : Nat) (reason : Option Nat) :
    Body × Chan :=
  (⟨[]⟩, b.taps.foldl (fun ch t => t.fail ch now reason) c)

/-- One step of the observed body: `poll_data` forwards the frame and, if
the inner stream just ended, emits the terminal events (`Body::data`);
a data error or trailers error drains through `Body::err`; trailers drain
through `Body::eos`; dropping the body runs the `Drop` impl, which calls
`Body::eos` with no trailers. -/
def Body.step (b : Body) (c : Chan) (now : Nat) : BodyOp → Body × Chan
  | .pollData frame endOfStreamAfter =>
    let b' := b.dataStep frame
    if endOfStreamAfter then b'.eosAll c now none else (b', c)
  | .pollDataErr reason => b.errAll c now reason
  | .pollTrailers trls => b.eosAll c now trls
  | .pollTrailersErr reason => b.errAll c now reason
  | .dropBody => b.eosAll c now none

/-- Run the observed body over a sequence of timed steps. -/
def Body.run (b : Body) (c : Chan) : List (Nat × BodyOp) → Body × Chan
  | [] => (b, c)
  | op :: rest =>
    let s := b.step c op.1 op.2
    Body.run s.1 s.2 rest

/-- Whether the last step of a body's life is its drop. Rust runs `Drop`
exactly once, after every poll; a faithful op sequence ends with
`dropBody`. -/
def opsEndWithDrop : List (Nat × BodyOp) → Bool
  | [] => false
  | [op] => decide (op.2 = BodyOp.dropBody)
  | _ :: op :: rest => opsEndWithDrop (op :: rest)

/-- The op sequence of a response body that yields the given data frames
one per successful poll, none of them ending the stream. -/
def dataOps (sizes : List Nat) : List (Nat × BodyOp) :=
  sizes.map fun sz => (0, BodyOp.pollData (some sz) false)

/-- How an exchange proceeds after `Tap::tap` engaged a tap: either the
inner service fails before producing a response (`ResponseFuture`'s error
path calls `TapResponse::fail`), or it responds (`TapResponse::tap` runs,
the response body is wrapped, `Body::eos` fires immediately when the body
is already at end-of-stream, and the wrapped body then steps until it is
dropped). -/
inductive ExchangeRest where
  | innerFailed (failAt : Nat) (h2Reason : Option Nat)
  | responded (responseInitAt status : Nat) (endStreamNow : Bool)
      (ops : List (Nat × BodyOp))

/-- Faithfulness condition on the rest of an exchange: a created response
body is eventually dropped, as its last step. -/
def ExchangeRest.wf : ExchangeRest → Bool
  | .innerFailed _ _ => true
  | .responded _ _ _ ops => opsEndWithDrop ops

/-- Run the engaged tap through the rest of its exchange. -/
def runExchange (t : TapResponse) (c : Chan) : ExchangeRest → Chan
  | .innerFailed failAt reason => TapResponse.fail t c failAt reason
  | .responded respAt status endNow ops =>
    let r := TapResponse.tap t c respAt status
    let b : Body := ⟨[r.2]⟩
    let s := if endNow then Body.eosAll b r.1 respAt none else (b, r.1)
    (Body.run s.1 s.2 ops).2

/-- A whole tapped exchange against one handle: `Tap::tap`, then — when a
tap was engaged — the rest of the exchange lifecycle. -/
def runTappedExchange (t : Tap) (c : Chan) (req : RequestView) (i : InspectView)
    (reqAt : Nat) (rest : ExchangeRest) : Tap × Chan :=
  match Tap.tap t c req i reqAt with
  | (t', c', none) => (t', c')
  | (t', c', some (_, trsp)) => (t', runExchange trsp c' rest)

/-- A sequence of admission attempts against one handle: each attempt is
a `Tap::tap` call for a fresh request with the given shape, returning the
final handle and channel and the number of attempts that engaged. -/
def runAttempts (req : RequestView) (i : InspectView) (reqAt : Nat) :
    Tap → Chan → Nat → Tap × Chan × Nat
  | t, c, 0 => (t, c, 0)
  | t, c, k + 1 =>
    let r := Tap.tap t c req i reqAt
    let s := runAttempts req i reqAt r.1 r.2.1 k
    (s.1, s.2.1, (if r.2.2.isSome then 1 else 0) + s.2.2)

/-- Modelled from the spec: `remaining_budget` — the spec describes a
handle as carrying a remaining event budget; on this code it is the
initial limit minus the consumed admission counter. -/
def specRemainingBudget (t : Tap) : Int :=
  (t.limit : Int) - (t.count : Int)

-- Basic reduction lemmas for the channel and the tap admission step.

-- === Concrete fixtures used to evaluate the model ===

/-- A match-all predicate (the simplest compiled match). -/
def matchAll : Match := fun _ _ => true

/-- A small concrete request. -/
def sampleReq : RequestView := { method := "GET", scheme := none, path := "/" }

/-- A small concrete inspection result. -/
def sampleInspect : InspectView :=
  { isOutbound := false, srcAddr := none, srcTls := "none",
    dstAddr := none, dstTls := "none", dstLabels := none, authority := none }

/-- A live handle with budget 5 and nothing consumed. -/
def sampleTap : Tap :=
  { match_ := matchAll, baseId := 0, count := 0, limit := 5,
    responseHandleAlive := true }

/-- An upgradable weak reference to `sampleTap`. -/
def sampleWeakTap : WeakTap := { upgradable := true, tap := sampleTap }

/-- A live handle with budget 1 and nothing consumed. -/
def sampleLimitedTap : Tap :=
  { match_ := matchAll, baseId := 0, count := 0, limit := 1,
    responseHandleAlive := true }

/-- A live handle with budget 3 and nothing consumed. -/
def sampleBudgetTap : Tap :=
  { match_ := matchAll, baseId := 0, count := 0, limit := 3,
    responseHandleAlive := true }

/-- A tap event carrying no HTTP event, used to pre-fill queues. -/
def dummyEvent : TapEvent := { base := Tap.baseEvent sampleInspect, event := none }

/-- A freshly allocated subscription channel. -/
def freshChan : Chan :=
  { cap := 40, buf := [], log := [], rxAlive := true, txAlive := true }

/-- A channel whose queue is at capacity: the next `try_send` drops. -/
def fullChan : Chan :=
  { cap := 40, buf := List.replicate 40 dummyEvent, log := [],
    rxAlive := true, txAlive := true }

/-- A channel whose producer side has been dropped and whose queue is
drained. -/
def deadChan : Chan :=
  { cap := 40, buf := [], log := [], rxAlive := true, txAlive := false }

/-- Number of `RequestInit` events in a record. -/
def countRequestInits (l : List TapEvent) : Nat :=
  (l.filter TapEvent.isReqInit).length

/-- A live handle with budget 1 under subscription id 7. -/
def wTap : Tap :=
  { match_ := matchAll, baseId := 7, count := 0, limit := 1,
    responseHandleAlive := true }

/-- An engaged `TapResponse` for stream id `{1, 0}` whose request began at
time 2. -/
def c4TapResponse : TapResponse :=
  { id := ⟨1, 0⟩, base := Tap.baseEvent sampleInspect, requestInitAt := 2 }

-- === Theorems ===

theorem Chan.trySend_log (c : Chan) (e : TapEvent) :
    ((c.trySend e).1).log = c.log ++ [e] := rfl

theorem Chan.trySend_rxAlive (c : Chan) (e : TapEvent) :
    ((c.trySend e).1).rxAlive = c.rxAlive := rfl

/-- When the request matches, the counter is free and the sink accepts,
`Tap::tap` engages: counter bumped, `RequestInit` enqueued, engaged pair
returned. -/
theorem Tap.tap_engaged (t : Tap) (c : Chan) (req : RequestView)
    (i : InspectView) (requestInitAt : Nat)
    (hm : t.match_ req i = true) (hlt : t.count < t.limit)
    (hrx : c.rxAlive = true) (hroom : c.buf.length < c.cap) :
    Tap.tap t c req i requestInitAt =
      ({ t with count := (t.count + 1) % usizeMod },
       { c with buf := c.buf ++ [t.reqMsg req i], log := c.log ++ [t.reqMsg req i] },
       some ({ id := ⟨t.baseId, t.count⟩, base := Tap.baseEvent i },
             { id := ⟨t.baseId, t.count⟩, base := Tap.baseEvent i,
               requestInitAt := requestInitAt })) := by
  simp [Tap.tap, Chan.trySend, hm, hrx, hroom, Nat.not_le.mpr hlt]

/-- When the counter has reached the limit, `Tap::tap` still bumps the
counter but admits nothing. -/
theorem Tap.tap_exhausted (t : Tap) (c : Chan) (req : RequestView)
    (i : InspectView) (requestInitAt : Nat)
    (hm : t.match_ req i = true) (hge : t.limit ≤ t.count) :
    Tap.tap t c req i requestInitAt =
      ({ t with count := (t.count + 1) % usizeMod }, c, none) := by
  simp [Tap.tap, hm, hge]

/-- A non-matching request leaves the tap and the sink untouched. -/
theorem Tap.tap_nomatch (t : Tap) (c : Chan) (req : RequestView)
    (i : InspectView) (requestInitAt : Nat)
    (hm : t.match_ req i = false) :
    Tap.tap t c req i requestInitAt = (t, c, none) := by
  simp [Tap.tap, hm]

-- === Supporting lemmas about the observed body's emission record ===

theorem TapResponseBody.data_id (b : TapResponseBody) (sz : Nat) :
    (b.data sz).id = b.id := rfl

theorem TapResponseBody.endMsg_isRspEnd (b : TapResponseBody) (now : Nat)
    (e : Option EosEnd) : (b.endMsg now e).isRspEnd = true := rfl

theorem TapResponseBody.endMsg_idOf (b : TapResponseBody) (now : Nat)
    (e : Option EosEnd) : (b.endMsg now e).idOf = some b.id := rfl

theorem TapResponseBody.eos_log (b : TapResponseBody) (c : Chan) (now : Nat)
    (trls : Option (Option Nat)) :
    (b.eos c now trls).log = c.log ++ [b.endMsg now (grpcStatusOf trls)] := rfl

theorem TapResponseBody.fail_log (b : TapResponseBody) (c : Chan) (now : Nat)
    (reason : Option Nat) :
    (b.fail c now reason).log = c.log ++ [b.endMsg now (reason.map .resetErrorCode)] := rfl

/-- A body with no attached taps emits nothing, whatever happens to it. -/
theorem Body.run_empty (ops : List (Nat × BodyOp)) :
    ∀ c : Chan, Body.run ⟨[]⟩ c ops = (⟨[]⟩, c) := by
  induction ops with
  | nil => intro c; rfl
  | cons op rest ih =>
    intro c
    obtain ⟨now, o⟩ := op
    cases o with
    | pollData frame endAfter =>
      cases frame <;> cases endAfter <;>
        simp [Body.run, Body.step, Body.dataStep, Body.eosAll, ih]
    | pollDataErr r => simp [Body.run, Body.step, Body.errAll, ih]
    | pollTrailers t => simp [Body.run, Body.step, Body.eosAll, ih]
    | pollTrailersErr r => simp [Body.run, Body.step, Body.errAll, ih]
    | dropBody => simp [Body.run, Body.step, Body.eosAll, ih]

/-- Unfolding one step of `Body.run`. -/
theorem Body.run_cons (b : Body) (c : Chan) (op : Nat × BodyOp)
    (rest : List (Nat × BodyOp)) :
    Body.run b c (op :: rest) =
      Body.run (b.step c op.1 op.2).1 (b.step c op.1 op.2).2 rest := rfl

/-- The key single-tap drain property: a body carrying one attached tap,
stepped through any op sequence whose last step is its drop, emits
exactly one further event, a `ResponseEnd` for that tap's stream id, and
emits nothing after it. -/
theorem Body.run_single (ops : List (Nat × BodyOp)) :
    opsEndWithDrop ops = true →
    ∀ (trb : TapResponseBody) (c : Chan),
      ∃ e : TapEvent,
        (Body.run ⟨[trb]⟩ c ops).2.log = c.log ++ [e] ∧
        e.isRspEnd = true ∧ e.idOf = some trb.id := by
  induction ops with
  | nil => intro h; exact absurd h (by simp [opsEndWithDrop])
  | cons op rest ih =>
    intro h trb c
    obtain ⟨now, o⟩ := op
    cases rest with
    | nil =>
      have ho : o = BodyOp.dropBody := by simpa [opsEndWithDrop] using h
      subst ho
      refine ⟨trb.endMsg now none, ?_, rfl, rfl⟩
      have hrun : (Body.run ⟨[trb]⟩ c [(now, BodyOp.dropBody)]).2 =
          trb.eos c now none := rfl
      rw [hrun]
      rfl
    | cons op2 rest2 =>
      have h' : opsEndWithDrop (op2 :: rest2) = true := by
        simpa [opsEndWithDrop] using h
      cases o with
      | pollData frame endAfter =>
        cases endAfter with
        | false =>
          cases frame with
          | none =>
            have hrun : Body.run ⟨[trb]⟩ c ((now, BodyOp.pollData none false) :: op2 :: rest2) =
                Body.run ⟨[trb]⟩ c (op2 :: rest2) := rfl
            rw [hrun]
            exact ih h' trb c
          | some sz =>
            have hrun : Body.run ⟨[trb]⟩ c
                  ((now, BodyOp.pollData (some sz) false) :: op2 :: rest2) =
                Body.run ⟨[trb.data sz]⟩ c (op2 :: rest2) := rfl
            rw [hrun]
            obtain ⟨e, he, h1, h2⟩ := ih h' (trb.data sz) c
            exact ⟨e, he, h1, by rw [h2, TapResponseBody.data_id]⟩
        | true =>
          cases frame with
          | none =>
            refine ⟨trb.endMsg now none, ?_, rfl, rfl⟩
            have hrun : (Body.run ⟨[trb]⟩ c
                  ((now, BodyOp.pollData none true) :: op2 :: rest2)).2 =
                (Body.run ⟨[]⟩ (trb.eos c now none) (op2 :: rest2)).2 := rfl
            rw [hrun, Body.run_empty]
            rfl
          | some sz =>
            refine ⟨(trb.data sz).endMsg now none, ?_, rfl, rfl⟩
            have hrun : (Body.run ⟨[trb]⟩ c
                  ((now, BodyOp.pollData (some sz) true) :: op2 :: rest2)).2 =
                (Body.run ⟨[]⟩ ((trb.data sz).eos c now none) (op2 :: rest2)).2 := rfl
            rw [hrun, Body.run_empty]
            rfl
      | pollDataErr r =>
        refine ⟨trb.endMsg now (r.map .resetErrorCode), ?_, rfl, rfl⟩
        have hrun : (Body.run ⟨[trb]⟩ c
              ((now, BodyOp.pollDataErr r) :: op2 :: rest2)).2 =
            (Body.run ⟨[]⟩ (trb.fail c now r) (op2 :: rest2)).2 := rfl
        rw [hrun, Body.run_empty]
        rfl
      | pollTrailers trls =>
        refine ⟨trb.endMsg now (grpcStatusOf trls), ?_, rfl, rfl⟩
        have hrun : (Body.run ⟨[trb]⟩ c
              ((now, BodyOp.pollTrailers trls) :: op2 :: rest2)).2 =
            (Body.run ⟨[]⟩ (trb.eos c now trls) (op2 :: rest2)).2 := rfl
        rw [hrun, Body.run_empty]
        rfl
      | pollTrailersErr r =>
        refine ⟨trb.endMsg now (r.map .resetErrorCode), ?_, rfl, rfl⟩
        have hrun : (Body.run ⟨[trb]⟩ c
              ((now, BodyOp.pollTrailersErr r) :: op2 :: rest2)).2 =
            (Body.run ⟨[]⟩ (trb.fail c now r) (op2 :: rest2)).2 := rfl
        rw [hrun, Body.run_empty]
        rfl
      | dropBody =>
        refine ⟨trb.endMsg now none, ?_, rfl, rfl⟩
        have hrun : (Body.run ⟨[trb]⟩ c
              ((now, BodyOp.dropBody) :: op2 :: rest2)).2 =
            (Body.run ⟨[]⟩ (trb.eos c now none) (op2 :: rest2)).2 := rfl
        rw [hrun, Body.run_empty]
        rfl

theorem Body.run_append (xs ys : List (Nat × BodyOp)) :
    ∀ (b : Body) (c : Chan), Body.run b c (xs ++ ys) =
      Body.run (Body.run b c xs).1 (Body.run b c xs).2 ys := by
  induction xs with
  | nil => intro b c; rfl
  | cons x xs ih => intro b c; rw [List.cons_append, Body.run_cons, Body.run_cons, ih]

/-- Feeding data frames to a single-tap body only accumulates their sizes
into the tap's byte counter; nothing is emitted. -/
theorem Body.run_dataOps (sizes : List Nat) :
    ∀ (trb : TapResponseBody) (c : Chan), trb.responseBytes < usizeMod →
      Body.run ⟨[trb]⟩ c (dataOps sizes) =
        (⟨[{ trb with responseBytes := (trb.responseBytes + sizes.sum) % usizeMod }]⟩, c) := by
  induction sizes with
  | nil =>
    intro trb c h
    simp [dataOps, Body.run, Nat.mod_eq_of_lt h]
  | cons sz rest ih =>
    intro trb c h
    have hrun : Body.run ⟨[trb]⟩ c (dataOps (sz :: rest)) =
        Body.run ⟨[trb.data sz]⟩ c (dataOps rest) := rfl
    have hlt : (trb.data sz).responseBytes < usizeMod :=
      Nat.mod_lt _ (by norm_num [usizeMod])
    rw [hrun, ih (trb.data sz) c hlt]
    simp [TapResponseBody.data, Nat.mod_add_mod, Nat.add_assoc]

/-- What an engagement tells us: when `Tap::tap` returns an engaged pair,
the `RequestInit` event for the engaged stream id was just recorded on
the sink, and the `TapResponse` carries the id `{base_id, count}`. -/
theorem Tap.tap_some (t : Tap) (c : Chan) (req : RequestView) (i : InspectView)
    (reqAt : Nat) (t' : Tap) (c' : Chan) (trq : TapRequestBody) (trsp : TapResponse)
    (h : Tap.tap t c req i reqAt = (t', c', some (trq, trsp))) :
    c'.log = c.log ++ [t.reqMsg req i] ∧
    (t.reqMsg req i).idOf = some trsp.id ∧
    (t.reqMsg req i).isReqInit = true ∧
    (t.reqMsg req i).isRspEnd = false := by
  unfold Tap.tap at h
  split at h
  · exact absurd h (by simp)
  · dsimp only at h
    split at h
    · exact absurd h (by simp)
    · split at h
      · injection h with h1 h2
        injection h2 with h2 h3
        injection h3 with h3
        injection h3 with h3a h3b
        subst h2
        subst h3b
        exact ⟨Chan.trySend_log c _, rfl, rfl, rfl⟩
      · exact absurd h (by simp)

/-- The emissions of the rest of an exchange, after engagement: an
optional `ResponseInit` followed by exactly one terminal `ResponseEnd`
for the engaged stream id, and nothing after it. -/
theorem runExchange_log (trsp : TapResponse) (c : Chan) (rest : ExchangeRest)
    (hwf : rest.wf = true) :
    ∃ (optRsp : List TapEvent) (endE : TapEvent),
      (runExchange trsp c rest).log = (c.log ++ optRsp) ++ [endE] ∧
      endE.isRspEnd = true ∧ endE.idOf = some trsp.id ∧
      (optRsp = [] ∨ ∃ r, optRsp = [r] ∧ r.isRspInit = true ∧
        r.isRspEnd = false ∧ r.idOf = some trsp.id) := by
  cases rest with
  | innerFailed failAt reason =>
    refine ⟨[], trsp.failMsg failAt reason, ?_, rfl, rfl, Or.inl rfl⟩
    simp [runExchange, TapResponse.fail, Chan.trySend]
  | responded respAt status endNow ops =>
    have hops : opsEndWithDrop ops = true := by simpa [ExchangeRest.wf] using hwf
    cases endNow with
    | true =>
      refine ⟨[trsp.rspMsg respAt status],
        (TapResponseBody.mk trsp.id trsp.base trsp.requestInitAt respAt 0).endMsg
          respAt none, ?_, rfl, rfl, Or.inr ⟨_, rfl, rfl, rfl, rfl⟩⟩
      have hrun : runExchange trsp c (.responded respAt status true ops) =
          (Body.run ⟨[]⟩
            ((TapResponseBody.mk trsp.id trsp.base trsp.requestInitAt respAt 0).eos
              ((c.trySend (trsp.rspMsg respAt status)).1) respAt none) ops).2 := rfl
      rw [hrun, Body.run_empty]
      rfl
    | false =>
      obtain ⟨e, he, h1, h2⟩ := Body.run_single ops hops
        (TapResponseBody.mk trsp.id trsp.base trsp.requestInitAt respAt 0)
        ((c.trySend (trsp.rspMsg respAt status)).1)
      refine ⟨[trsp.rspMsg respAt status], e, ?_, h1, h2, Or.inr ⟨_, rfl, rfl, rfl, rfl⟩⟩
      have hrun : runExchange trsp c (.responded respAt status false ops) =
          (Body.run ⟨[TapResponseBody.mk trsp.id trsp.base trsp.requestInitAt respAt 0]⟩
            ((c.trySend (trsp.rspMsg respAt status)).1) ops).2 := rfl
      rw [hrun, he, Chan.trySend_log]

/-- Claim C5 (code bug): `Server::observe` widens the u32 request limit to
`usize` before comparing it with `::std::usize::MAX`, so on a 64-bit
target the reserved "unbounded" sentinel `u32::MAX = 4294967295` is never
caught by the dead "limit is too large" branch: the subscription is
accepted and a handle with that budget is registered, where the spec
demands an invalid-argument failure with no registration. -/
theorem observe_accepts_u32_max_sentinel :
    Server.observe { baseId := 0, registry := [] } 4294967295 (Except.ok matchAll) =
      ({ baseId := 1,
         registry := [({ match_ := matchAll, baseId := 0, count := 0,
                         limit := 4294967295, responseHandleAlive := true } : Tap)] },
       ObserveOutcome.ok { cap := 40, buf := [], log := [],
                           rxAlive := true, txAlive := true }) := rfl

/-- Claim C6 (code bug): `Service::call` stores the request unchanged in
`ResponseFuture::PendingTaps` — the block wrapping the request body in an
observed `Body` is commented out in the source, contradicting the
declared inner-service request type — so even with one admitted matching
tap the request body is passed on unwrapped. -/
theorem call_passes_request_unwrapped :
    Service.call [sampleWeakTap] sampleReq sampleInspect (37 : Nat) =
      { matched := 1, reqBody := PassedBody.plain 37 } := rfl

/-- Claim C7: the subscription's event stream never surfaces an error to
the consumer — any receiver error is mapped to a clean end-of-stream —
and once the producer side is dropped and the queue drained, polling
yields `Ready(None)`. -/
theorem response_stream_poll_never_errors :
    (∀ r : Except Unit (Async (Option TapEvent)),
      ∃ v, ResponseStream.pollMap r = .ok v) ∧
    (∀ c : Chan, c.txAlive = false → c.buf = [] →
      (ResponseStream.poll c).1 = .ok (.ready none)) := by
  constructor
  · intro r
    cases r with
    | ok v => exact ⟨v, rfl⟩
    | error e => exact ⟨.ready none, rfl⟩
  · intro c ht hb
    simp [ResponseStream.poll, Chan.recvPoll, hb, ht, ResponseStream.pollMap]

/-- Witness for C7 at a drained channel with no producers left. -/
theorem response_stream_poll_never_errors_witness :
    (ResponseStream.poll deadChan).1 = .ok (.ready none) :=
  response_stream_poll_never_errors.2 deadChan rfl rfl

/-- Claim C10: after the readiness step, every handle still in the active
tap set upgrades to a live tap satisfying `can_tap_more` — its consumer
side is alive and its admission count is strictly below its limit — so
budget-exhausted handles are pruned exactly like disconnected ones. -/
theorem poll_ready_prunes_to_can_tap_more (taps incoming : List WeakTap)
    (w : WeakTap) (hw : w ∈ pollReadyTaps taps incoming) :
    ∃ tp : Tap, w.upgrade = some tp ∧ tp.responseHandleAlive = true ∧
      tp.count < tp.limit := by
  have hmem : w ∈ (taps ++ incoming).filter
      (fun w => (w.upgrade.map Tap.canTapMore).getD false) := hw
  have hcond := (List.mem_filter.mp hmem).2
  cases hu : w.upgrade with
  | none => rw [hu] at hcond; simp at hcond
  | some tp =>
    rw [hu] at hcond
    simp [Tap.canTapMore] at hcond
    exact ⟨tp, rfl, hcond.1, hcond.2⟩

/-- Witness for C10 at a singleton active set. -/
theorem poll_ready_prunes_to_can_tap_more_witness :
    ∃ tp : Tap, sampleWeakTap.upgrade = some tp ∧
      tp.responseHandleAlive = true ∧ tp.count < tp.limit :=
  poll_ready_prunes_to_can_tap_more [sampleWeakTap] [] sampleWeakTap
    (by simp [pollReadyTaps, WeakTap.upgrade, Tap.canTapMore, sampleWeakTap, sampleTap])

/-- Claim C9: when a matching request passes the eligibility check but
the non-blocking send of `RequestInit` fails (queue full or consumer
gone), `Tap::tap` returns no engaged tap and the sink's queue is
unchanged, yet the counter was already bumped — the unit of budget stays
consumed; consequently, on a full sink, one admission produces zero
`RequestInit` events for the consumer. -/
theorem tap_send_fail_consumes_budget :
    (∀ (t : Tap) (c : Chan) (req : RequestView) (i : InspectView) (reqAt : Nat),
      t.match_ req i = true → t.count < t.limit →
      (c.rxAlive = false ∨ c.cap ≤ c.buf.length) →
      Tap.tap t c req i reqAt =
        ({ t with count := (t.count + 1) % usizeMod },
         { c with log := c.log ++ [t.reqMsg req i] }, none)) ∧
    ((runAttempts sampleReq sampleInspect 0 sampleLimitedTap fullChan 1).1.count = 1 ∧
      countRequestInits
        (runAttempts sampleReq sampleInspect 0 sampleLimitedTap fullChan 1).2.1.buf = 0) := by
  constructor
  · intro t c req i reqAt hm hlt hfail
    have hok : (c.rxAlive && decide (c.buf.length < c.cap)) = false := by
      rcases hfail with h | h
      · simp [h]
      · simp [Nat.not_lt.mpr h]
    simp [Tap.tap, Chan.trySend, hm, Nat.not_le.mpr hlt, hok]
  · exact ⟨by decide, by decide⟩

/-- Witness for C9: the full channel drops the `RequestInit`, the tap is
not engaged, and the budget is consumed. -/
theorem tap_send_fail_consumes_budget_witness :
    Tap.tap sampleLimitedTap fullChan sampleReq sampleInspect 0 =
      ({ sampleLimitedTap with count := 1 },
       { fullChan with log := [sampleLimitedTap.reqMsg sampleReq sampleInspect] },
       none) :=
  tap_send_fail_consumes_budget.1 sampleLimitedTap fullChan sampleReq sampleInspect 0
    rfl (by decide) (Or.inr (by decide))

/-- The counter-characterisation of a run of matching admission attempts:
starting from an arbitrary consumed count, with room in the sink for all
attempts, the engagements are exactly the attempts whose prior count was
below the limit. -/
theorem runAttempts_successes (k : Nat) :
    ∀ (t : Tap) (c : Chan) (req : RequestView) (i : InspectView) (reqAt : Nat),
      t.match_ req i = true → t.count + k < usizeMod →
      c.rxAlive = true → c.buf.length + k ≤ c.cap →
      (runAttempts req i reqAt t c k).2.2 =
        min t.limit (t.count + k) - min t.limit t.count := by
  induction k with
  | zero =>
    intro t c req i reqAt hm hcount hrx hbuf
    simp [runAttempts]
  | succ k ih =>
    intro t c req i reqAt hm hcount hrx hbuf
    have hstep : runAttempts req i reqAt t c (k + 1) =
        (let r := Tap.tap t c req i reqAt
         let s := runAttempts req i reqAt r.1 r.2.1 k
         (s.1, s.2.1, (if r.2.2.isSome then 1 else 0) + s.2.2)) := rfl
    have hmod : (t.count + 1) % usizeMod = t.count + 1 :=
      Nat.mod_eq_of_lt (by omega)
    rcases Nat.lt_or_ge t.count t.limit with hlt | hge
    · have hroom : c.buf.length < c.cap := by omega
      rw [hstep, Tap.tap_engaged t c req i reqAt hm hlt hrx hroom]
      dsimp only
      have hih := ih { t with count := (t.count + 1) % usizeMod }
        { c with buf := c.buf ++ [t.reqMsg req i], log := c.log ++ [t.reqMsg req i] }
        req i reqAt hm (by simp [hmod]; omega) hrx (by simp; omega)
      rw [hih]
      clear hih
      simp only [Option.isSome_some, if_true, hmod]
      omega
    · rw [hstep, Tap.tap_exhausted t c req i reqAt hm hge]
      dsimp only
      have hih := ih { t with count := (t.count + 1) % usizeMod } c
        req i reqAt hm (by simp [hmod]; omega) hrx (by omega)
      rw [hih]
      clear hih
      simp [hmod]
      omega

/-- Claim C2 (amended): over any sequence of fewer than `2 ^ 64` matching
admission attempts with room in the sink, a handle with initial budget B
engages exactly `min B attempts` of them, and a handle whose counter has
reached its limit always returns failure; however, every matching attempt
— successful or not — bumps the consumed counter, so the remaining budget
`limit - count` can go negative once attempts exceed B. -/
theorem tap_admission_count_amended :
    (∀ (t : Tap) (c : Chan) (req : RequestView) (i : InspectView) (reqAt k : Nat),
      t.match_ req i = true → t.count = 0 → k < usizeMod →
      c.rxAlive = true → c.buf.length + k ≤ c.cap →
      (runAttempts req i reqAt t c k).2.2 = min t.limit k) ∧
    (∀ (t : Tap) (c : Chan) (req : RequestView) (i : InspectView) (reqAt : Nat),
      t.limit ≤ t.count → (Tap.tap t c req i reqAt).2.2 = none) := by
  constructor
  · intro t c req i reqAt k hm h0 hk hrx hbuf
    have h := runAttempts_successes k t c req i reqAt hm (by omega) hrx hbuf
    rw [h, h0]
    simp
  · intro t c req i reqAt hle
    cases hm : t.match_ req i with
    | false => rw [Tap.tap_nomatch t c req i reqAt hm]
    | true => rw [Tap.tap_exhausted t c req i reqAt hm hle]

/-- Witness for C2's amended statement: budget 3, five matching attempts,
exactly three engagements. -/
theorem tap_admission_count_amended_witness :
    (runAttempts sampleReq sampleInspect 0 sampleBudgetTap freshChan 5).2.2 = min 3 5 :=
  tap_admission_count_amended.1 sampleBudgetTap freshChan sampleReq sampleInspect 0 5
    rfl rfl (by decide) rfl (by decide)

/-- Counterexample to C2 as stated: with budget 1 and two matching
attempts, the remaining budget `limit - count` is `-1` — it does go
negative, because the failed second attempt still bumped the counter. -/
theorem tap_admission_negative_budget_cex :
    specRemainingBudget
      (runAttempts sampleReq sampleInspect 0 sampleLimitedTap freshChan 2).1 = -1 := by
  decide

/-- Claim C1: for every exchange that engages a tap, exactly one terminal
event is emitted to that tap's sink — whether the exchange ends by clean
end-of-stream, by an inner body error, by the inner service failing
before a response, or by the body being dropped before a terminal state —
never zero and never more than one. -/
theorem tap_exchange_exactly_one_terminal
    (t t' : Tap) (c c' : Chan) (req : RequestView) (i : InspectView) (reqAt : Nat)
    (trq : TapRequestBody) (trsp : TapResponse) (rest : ExchangeRest)
    (hwf : rest.wf = true)
    (h : Tap.tap t c req i reqAt = (t', c', some (trq, trsp))) :
    terminalCount trsp.id (runTappedExchange t c req i reqAt rest).2.log =
      terminalCount trsp.id c.log + 1 := by
  obtain ⟨hlog, hid, hreq, hnotend⟩ := Tap.tap_some t c req i reqAt t' c' trq trsp h
  have hrun : runTappedExchange t c req i reqAt rest = (t', runExchange trsp c' rest) := by
    unfold runTappedExchange
    rw [h]
  rw [hrun]
  obtain ⟨optRsp, endE, hlog2, hEnd, hEndId, hopt⟩ := runExchange_log trsp c' rest hwf
  rcases hopt with hnone | ⟨r, hr, hrInit, hrEnd, hrId⟩
  · subst hnone
    dsimp only
    rw [hlog2, hlog]
    simp [terminalCount, List.filter_append, TapEvent.isEndFor, TapEvent.hasId,
      hnotend, hEnd, hEndId]
  · subst hr
    dsimp only
    rw [hlog2, hlog]
    simp [terminalCount, List.filter_append, TapEvent.isEndFor, TapEvent.hasId,
      hnotend, hEnd, hEndId, hrEnd]

/-- Witness for C1: a budget-1 handle engages, the response arrives, and
the body is dropped before any terminal signal; exactly one terminal
event is recorded for the stream. -/
theorem tap_exchange_exactly_one_terminal_witness :
    terminalCount ⟨7, 0⟩
      (runTappedExchange wTap freshChan sampleReq sampleInspect 1
        (.responded 5 200 false [(9, .dropBody)])).2.log =
      terminalCount ⟨7, 0⟩ freshChan.log + 1 :=
  tap_exchange_exactly_one_terminal wTap
    { wTap with count := 1 } freshChan
    { freshChan with buf := [wTap.reqMsg sampleReq sampleInspect],
                     log := [wTap.reqMsg sampleReq sampleInspect] }
    sampleReq sampleInspect 1
    { id := ⟨7, 0⟩, base := Tap.baseEvent sampleInspect }
    { id := ⟨7, 0⟩, base := Tap.baseEvent sampleInspect, requestInitAt := 1 }
    (.responded 5 200 false [(9, .dropBody)]) rfl rfl

/-- Claim C3: the events recorded on a tap's sink for a given stream id
occur in the order `RequestInit`, then optionally `ResponseInit`, then
exactly one terminal `ResponseEnd`; no event with that stream id is ever
emitted after the terminal. -/
theorem tap_stream_event_order
    (t t' : Tap) (c c' : Chan) (req : RequestView) (i : InspectView) (reqAt : Nat)
    (trq : TapRequestBody) (trsp : TapResponse) (rest : ExchangeRest)
    (hwf : rest.wf = true)
    (h : Tap.tap t c req i reqAt = (t', c', some (trq, trsp)))
    (hfresh : ∀ e ∈ c.log, TapEvent.hasId trsp.id e = false) :
    ∃ (reqE endE : TapEvent) (optRsp : List TapEvent),
      eventsFor trsp.id (runTappedExchange t c req i reqAt rest).2.log =
        reqE :: (optRsp ++ [endE]) ∧
      reqE.isReqInit = true ∧
      (optRsp = [] ∨ ∃ rspE, optRsp = [rspE] ∧ rspE.isRspInit = true) ∧
      endE.isRspEnd = true ∧
      (runTappedExchange t c req i reqAt rest).2.log.filter
        (TapEvent.isEndFor trsp.id) = [endE] := by
  obtain ⟨hlog, hid, hreq, hnotend⟩ := Tap.tap_some t c req i reqAt t' c' trq trsp h
  have hrun : runTappedExchange t c req i reqAt rest = (t', runExchange trsp c' rest) := by
    unfold runTappedExchange
    rw [h]
  obtain ⟨optRsp, endE, hlog2, hEnd, hEndId, hopt⟩ := runExchange_log trsp c' rest hwf
  have hfilter0 : c.log.filter (TapEvent.hasId trsp.id) = [] :=
    List.filter_eq_nil_iff.mpr (fun e he => by simp [hfresh e he])
  have hfilterEnd0 : c.log.filter (TapEvent.isEndFor trsp.id) = [] :=
    List.filter_eq_nil_iff.mpr
      (fun e he => by simp [TapEvent.isEndFor, hfresh e he])
  rcases hopt with hnone | ⟨r, hr, hrInit, hrEnd, hrId⟩
  · subst hnone
    refine ⟨t.reqMsg req i, endE, [], ?_, hreq, Or.inl rfl, hEnd, ?_⟩
    · rw [hrun]
      dsimp only
      rw [hlog2, hlog]
      simp [eventsFor, List.filter_append, hfilter0, TapEvent.hasId, hid, hEndId]
    · rw [hrun]
      dsimp only
      rw [hlog2, hlog]
      simp [List.filter_append, hfilterEnd0, TapEvent.isEndFor, TapEvent.hasId,
        hnotend, hEnd, hEndId]
  · subst hr
    refine ⟨t.reqMsg req i, endE, [r], ?_, hreq, Or.inr ⟨r, rfl, hrInit⟩, hEnd, ?_⟩
    · rw [hrun]
      dsimp only
      rw [hlog2, hlog]
      simp [eventsFor, List.filter_append, hfilter0, TapEvent.hasId, hid, hEndId, hrId]
    · rw [hrun]
      dsimp only
      rw [hlog2, hlog]
      simp [List.filter_append, hfilterEnd0, TapEvent.isEndFor, TapEvent.hasId,
        hnotend, hEnd, hEndId, hrEnd]

/-- Witness for C3: a budget-1 handle engages and the inner service then
fails before a response; the stream sees `RequestInit` followed by one
terminal event. -/
theorem tap_stream_event_order_witness :
    ∃ (reqE endE : TapEvent) (optRsp : List TapEvent),
      eventsFor ⟨7, 0⟩
        (runTappedExchange wTap freshChan sampleReq sampleInspect 1
          (.innerFailed 3 none)).2.log = reqE :: (optRsp ++ [endE]) ∧
      reqE.isReqInit = true ∧
      (optRsp = [] ∨ ∃ rspE, optRsp = [rspE] ∧ rspE.isRspInit = true) ∧
      endE.isRspEnd = true ∧
      (runTappedExchange wTap freshChan sampleReq sampleInspect 1
        (.innerFailed 3 none)).2.log.filter (TapEvent.isEndFor ⟨7, 0⟩) = [endE] :=
  tap_stream_event_order wTap { wTap with count := 1 } freshChan
    { freshChan with buf := [wTap.reqMsg sampleReq sampleInspect],
                     log := [wTap.reqMsg sampleReq sampleInspect] }
    sampleReq sampleInspect 1
    { id := ⟨7, 0⟩, base := Tap.baseEvent sampleInspect }
    { id := ⟨7, 0⟩, base := Tap.baseEvent sampleInspect, requestInitAt := 1 }
    (.innerFailed 3 none) rfl rfl (by simp [freshChan])

/-- Claim C4 (code bug): when the observed body is dropped before
reaching a terminal state, the `Drop` impl calls `eos(None)`, so the
terminal event carries `Eos { end: None }` — byte-for-byte the same event
a clean trailerless end-of-stream produces, with no cancellation cause
(the eos type has no cancellation variant at all; the source's TODO notes
the drop "should be recorded as a cancelation"). -/
theorem tap_drop_emits_clean_eos_not_cancel :
    runExchange c4TapResponse freshChan (.responded 5 200 false [(9, .dropBody)]) =
      runExchange c4TapResponse freshChan
        (.responded 5 200 false [(9, .pollTrailers none)]) ∧
    (runExchange c4TapResponse freshChan
        (.responded 5 200 false [(9, .dropBody)])).log.getLast? =
      some { base := Tap.baseEvent sampleInspect,
             event := some (.responseEnd ⟨1, 0⟩ 7 (some 4) 0 ⟨none⟩) } :=
  ⟨rfl, rfl⟩

/-- Two trailing steps of a response body: clean trailers, then the drop
of the already-drained body, which emits nothing further. -/
theorem Body.run_trailers_drop (trb : TapResponseBody) (c : Chan)
    (tEnd tDrop : Nat) (trls : Option (Option Nat)) :
    (Body.run ⟨[trb]⟩ c [(tEnd, .pollTrailers trls), (tDrop, .dropBody)]).2 =
      trb.eos c tEnd trls := rfl

/-- Claim C8: when a tapped response body delivers its data frames and
then ends cleanly, the terminal `ResponseEnd` carries exactly the sum of
the delivered frames' sizes as its byte count. -/
theorem response_end_byte_count_exact
    (trsp : TapResponse) (c : Chan) (respAt status tEnd tDrop : Nat)
    (sizes : List Nat) (trls : Option (Option Nat))
    (hsum : sizes.sum < usizeMod) :
    (runExchange trsp c (.responded respAt status false
        (dataOps sizes ++ [(tEnd, .pollTrailers trls), (tDrop, .dropBody)]))).log =
      c.log ++ [trsp.rspMsg respAt status,
        { base := trsp.base
          event := some (.responseEnd trsp.id (tEnd - trsp.requestInitAt)
            (some (tEnd - respAt)) sizes.sum ⟨grpcStatusOf trls⟩) }] := by
  have hrun : runExchange trsp c (.responded respAt status false
      (dataOps sizes ++ [(tEnd, .pollTrailers trls), (tDrop, .dropBody)])) =
      (Body.run ⟨[TapResponseBody.mk trsp.id trsp.base trsp.requestInitAt respAt 0]⟩
        ((c.trySend (trsp.rspMsg respAt status)).1)
        (dataOps sizes ++ [(tEnd, .pollTrailers trls), (tDrop, .dropBody)])).2 := rfl
  rw [hrun, Body.run_append, Body.run_dataOps sizes _ _
    (by change (0 : Nat) < usizeMod; decide)]
  dsimp only
  rw [Body.run_trailers_drop, TapResponseBody.eos_log, Chan.trySend_log]
  simp [TapResponseBody.endMsg, Nat.mod_eq_of_lt hsum]

/-- Witness for C8: three frames of sizes 2, 3 and 4, then clean
end-of-stream — the terminal event reports 9 bytes. -/
theorem response_end_byte_count_exact_witness :
    (runExchange c4TapResponse freshChan (.responded 5 200 false
        (dataOps [2, 3, 4] ++ [(9, .pollTrailers none), (10, .dropBody)]))).log =
      [c4TapResponse.rspMsg 5 200,
       { base := c4TapResponse.base
         event := some (.responseEnd ⟨1, 0⟩ 7 (some 4) 9 ⟨none⟩) }] :=
  response_end_byte_count_exact c4TapResponse freshChan 5 200 9 10 [2, 3, 4] none
    (by decide)
